import Mathlib

/-!
Verification of the process snapshot and exception-translation core of the
psutil platform layer, as implemented by the OSX backend (`psutil/_psosx.py`)
and the OpenVMS backend (`psutil/_psopenvms.py`).

Python exceptions are modelled by the inductive type `PyExc`; fallible
operations return `Except PyExc a`.  The native C extension (`cext`) is an
external collaborator: its results and failures enter the model as explicit
arguments, and the number of native calls an operation performs is returned
alongside its result where a claim depends on it.
-/

/-- Exception classes that flow through the backend code.  `osError` carries
the errno; `noSuchProcess`, `accessDenied` and `zombieProcess` are the psutil
domain errors carrying the pid and the last-known name (and parent pid);
`zombieProcessError` is the backend-specific native zombie signal
(`cext.ZombieProcessError`); `assertionError` models a failed `assert`;
`valueError` models `ValueError` with its message; `exception` models a bare
`Exception(msg)` as raised by the OpenVMS stubs. -/
inductive PyExc where
  | osError (en : Nat)
  | runtimeError
  | zombieProcessError
  | noSuchProcess (pid : Nat) (name : Option String)
  | accessDenied (pid : Nat) (name : Option String)
  | zombieProcess (pid : Nat) (name : Option String) (ppid : Option Nat)
  | assertionError
  | valueError (msg : String)
  | exception (msg : String)
  deriving DecidableEq, Repr

/-- errno value of `errno.ESRCH` (no such process). -/
def ESRCH : Nat := 3

/-- errno value of `errno.EPERM` (operation not permitted). -/
def EPERM : Nat := 1

/-- errno value of `errno.EACCES` (permission denied). -/
def EACCES : Nat := 13

/-- True exactly on the `osError` constructor (Python `isinstance(err, OSError)`). -/
def PyExc.isOSError : PyExc → Bool
  | .osError _ => true
  | _ => false

namespace Psosx

/-- Process status string constants from `psutil/_common.py` (external to this
snapshot): the values of STATUS_IDLE, STATUS_RUNNING, STATUS_SLEEPING,
STATUS_STOPPED, STATUS_ZOMBIE as used by the OSX backend. -/
def STATUS_IDLE : String := "idle"

def STATUS_RUNNING : String := "running"

def STATUS_SLEEPING : String := "sleeping"

def STATUS_STOPPED : String := "stopped"

def STATUS_ZOMBIE : String := "zombie"

/-- Error translation performed by the `wrap_exceptions` decorator of
`_psosx.py`: an `OSError` with errno ESRCH becomes `NoSuchProcess(pid, name)`,
with errno EPERM or EACCES becomes `AccessDenied(pid, name)`, a
`cext.ZombieProcessError` becomes `ZombieProcess(pid, name, ppid)`, and every
other exception is re-raised unchanged. -/
def wrap_err (pid : Nat) (name : Option String) (ppid : Option Nat) : PyExc → PyExc
  | .osError en =>
      if en = ESRCH then .noSuchProcess pid name
      else if en = EPERM ∨ en = EACCES then .accessDenied pid name
      else .osError en
  | .zombieProcessError => .zombieProcess pid name ppid
  | e => e

/-- The `wrap_exceptions` decorator of `_psosx.py` applied to the outcome of
the wrapped body: successful results pass through, failures are translated by
`wrap_err`. -/
def wrap_exceptions {α : Type} (pid : Nat) (name : Option String)
    (ppid : Option Nat) : Except PyExc α → Except PyExc α
  | .ok a => .ok a
  | .error e => .error (wrap_err pid name ppid e)

/-- The `catch_zombie` context manager of `_psosx.py`.  `probe` is the outcome
of the independent `proc.status()` call it performs when it catches an
ambiguous failure.  It catches only `OSError` and `RuntimeError` from the
body; if the caught error is a `RuntimeError` or an `OSError` with errno
ESRCH, it probes the status: a `NoSuchProcess` from the probe makes it
re-raise the original error, any other probe exception propagates, a zombie
status raises `ZombieProcess(pid, name, ppid)` and a non-zombie status raises
`AccessDenied(pid, name)`.  An `OSError` with a different errno, and every
exception class other than `OSError`/`RuntimeError`, is re-raised unchanged. -/
def catch_zombie {α : Type} (pid : Nat) (name : Option String)
    (ppid : Option Nat) (probe : Except PyExc String) :
    Except PyExc α → Except PyExc α
  | .ok a => .ok a
  | .error err =>
    match err with
    | .osError en =>
        if en = ESRCH then
          match probe with
          | .error (.noSuchProcess _ _) => .error (.osError en)
          | .error e => .error e
          | .ok st =>
              if st = STATUS_ZOMBIE then .error (.zombieProcess pid name ppid)
              else .error (.accessDenied pid name)
        else .error (.osError en)
    | .runtimeError =>
        match probe with
        | .error (.noSuchProcess _ _) => .error .runtimeError
        | .error e => .error e
        | .ok st =>
            if st = STATUS_ZOMBIE then .error (.zombieProcess pid name ppid)
            else .error (.accessDenied pid name)
    | e => .error e

/-- An accessor body guarded by `catch_zombie` inside a `wrap_exceptions`
decorator, the combination used by `exe`, `cmdline`, `environ`, `cwd`,
`open_files`, `connections`, `num_fds`, `nice_get` and `nice_set`. -/
def guarded_call {α : Type} (pid : Nat) (name : Option String)
    (ppid : Option Nat) (probe : Except PyExc String)
    (body : Except PyExc α) : Except PyExc α :=
  wrap_exceptions pid name ppid (catch_zombie pid name ppid probe body)

/-- The `kinfo_proc_map` field-index map of `_psosx.py`: semantic field name
to position in the raw tuple returned by `cext.proc_kinfo_oneshot`. -/
def kinfo_proc_map : List (String × Nat) :=
  [("ppid", 0), ("ruid", 1), ("euid", 2), ("suid", 3), ("rgid", 4),
   ("egid", 5), ("sgid", 6), ("ttynr", 7), ("ctime", 8), ("status", 9),
   ("name", 10)]

/-- The `pidtaskinfo_map` field-index map of `_psosx.py`: semantic field name
to position in the raw tuple returned by `cext.proc_pidtaskinfo_oneshot`. -/
def pidtaskinfo_map : List (String × Nat) :=
  [("cpuutime", 0), ("cpustime", 1), ("rss", 2), ("vms", 3), ("pfaults", 4),
   ("pageins", 5), ("numthreads", 6), ("volctxsw", 7)]

/-- Dictionary lookup `m[f]` on a field-index map; the default 0 is never
reached for the keys the backend uses (all present in the maps). -/
def mapIndex (m : List (String × Nat)) (f : String) : Nat :=
  (m.lookup f).getD 0

/-- A raw snapshot tuple is modelled as a list of integer field values (the
string-valued `name` field of `kinfo_proc` plays no role in any property
proved here, so all payloads are carried as integers). -/
abbrev RawTuple := List Int

/-- Length assertion of `Process._get_kinfo_proc` in `_psosx.py`:
`assert len(ret) == len(kinfo_proc_map)`, applied to the tuple `ret` returned
by the native call; on success the tuple is returned unmodified. -/
def get_kinfo_proc_check (ret : RawTuple) : Except PyExc RawTuple :=
  if ret.length = kinfo_proc_map.length then .ok ret
  else .error .assertionError

/-- Length assertion of `Process._get_pidtaskinfo` in `_psosx.py`:
`assert len(ret) == len(pidtaskinfo_map)`, applied to the tuple `ret` returned
by the native call under `catch_zombie`; on success the tuple is returned
unmodified. -/
def get_pidtaskinfo_check (ret : RawTuple) : Except PyExc RawTuple :=
  if ret.length = pidtaskinfo_map.length then .ok ret
  else .error .assertionError

/-- The `pmem` named tuple of `_psosx.py`: fields rss, vms, pfaults, pageins. -/
structure pmem where
  rss : Int
  vms : Int
  pfaults : Int
  pageins : Int
  deriving DecidableEq, Repr

/-- The `pfullmem` named tuple of `_psosx.py`: defined in the source as
`namedtuple('pfullmem', pmem._fields + ('uss',))`, that is the four `pmem`
fields plus one extra `uss` field. -/
structure pfullmem where
  rss : Int
  vms : Int
  pfaults : Int
  pageins : Int
  uss : Int
  deriving DecidableEq, Repr

namespace Process

/-- `Process.memory_info` of `_psosx.py` applied to the pidtaskinfo raw tuple:
builds a `pmem` from the rss, vms, pfaults and pageins fields. -/
def memory_info (raw : RawTuple) : pmem :=
  ⟨raw.getD (mapIndex pidtaskinfo_map "rss") 0,
   raw.getD (mapIndex pidtaskinfo_map "vms") 0,
   raw.getD (mapIndex pidtaskinfo_map "pfaults") 0,
   raw.getD (mapIndex pidtaskinfo_map "pageins") 0⟩

/-- `Process.memory_full_info` of `_psosx.py`: calls `memory_info`, fetches
uss via `cext.proc_memory_uss` (passed in as `uss`), and returns
`pfullmem(*basic_mem + (uss,))`. -/
def memory_full_info (raw : RawTuple) (uss : Int) : pfullmem :=
  let basic_mem := memory_info raw
  ⟨basic_mem.rss, basic_mem.vms, basic_mem.pfaults, basic_mem.pageins, uss⟩

/-- `Process.cpu_times` of `_psosx.py` applied to the pidtaskinfo raw tuple:
returns (user, system, children_user, children_system) where the children
times are not retrievable on this platform and are set to 0 by the source. -/
def cpu_times (raw : RawTuple) : Int × Int × Int × Int :=
  (raw.getD (mapIndex pidtaskinfo_map "cpuutime") 0,
   raw.getD (mapIndex pidtaskinfo_map "cpustime") 0,
   0, 0)

/-- `Process.num_ctx_switches` of `_psosx.py` applied to the pidtaskinfo raw
tuple: returns (voluntary, involuntary) where the involuntary value is not
available on this platform and is set to 0 by the source. -/
def num_ctx_switches (raw : RawTuple) : Int × Int :=
  (raw.getD (mapIndex pidtaskinfo_map "volctxsw") 0, 0)

end Process

/-- Native status codes from the OSX C extension (proc bsdinfo status values
SIDL, SRUN, SSLEEP, SSTOP, SZOMB exported by `cext`, external to this
snapshot; their native XNU values are 1..5). -/
def SIDL : Int := 1

def SRUN : Int := 2

def SSLEEP : Int := 3

def SSTOP : Int := 4

def SZOMB : Int := 5

/-- The `PROC_STATUSES` table of `_psosx.py`: native status code to psutil
status string. -/
def PROC_STATUSES : List (Int × String) :=
  [(SIDL, STATUS_IDLE), (SRUN, STATUS_RUNNING), (SSLEEP, STATUS_SLEEPING),
   (SSTOP, STATUS_STOPPED), (SZOMB, STATUS_ZOMBIE)]

/-- Status string computed by `Process.status` of `_psosx.py` from the native
status code: `PROC_STATUSES.get(code, '?')`, a total lookup with placeholder
default. -/
def statusOfCode (code : Int) : String :=
  (PROC_STATUSES.lookup code).getD "?"

namespace Process

/-- `Process.status` of `_psosx.py` applied to the kinfo raw tuple: reads the
status field and resolves it through `PROC_STATUSES` with default placeholder. -/
def status (raw : RawTuple) : String :=
  statusOfCode (raw.getD (mapIndex kinfo_proc_map "status") 0)

end Process

/-- Modelled from the spec: the allowed connection kinds are the keys of
`conn_tmap` in `psutil/_common.py`, which is not part of this snapshot; the
spec describes them as a fixed allowed set, listed here with the values of
the upstream table. -/
def conn_tmap_kinds : List String :=
  ["all", "tcp", "tcp4", "tcp6", "udp", "udp4", "udp6", "unix",
   "inet", "inet4", "inet6"]

/-- A raw connection entry as returned by `cext.proc_connections`:
(fd, family, type, laddr, raddr, status).  The per-item decoding into `pconn`
tuples uses helpers from `psutil/_common.py` external to this snapshot and is
not needed by any property proved here, so the raw entries are returned. -/
abbrev RawConn := Nat × Nat × Nat × String × String × Nat

namespace Process

/-- `Process.connections` of `_psosx.py`.  The second component counts calls
to the native provider.  The kind is validated against the allowed set before
anything else: an invalid kind raises `ValueError` (carrying the offending
kind) with no native call; a valid kind performs the native call (here its
outcome is the `native` argument) under `catch_zombie`, all inside the
`wrap_exceptions` decorator. -/
def connections (pid : Nat) (name : Option String) (ppid : Option Nat)
    (kind : String) (probe : Except PyExc String)
    (native : Except PyExc (List RawConn)) :
    Except PyExc (List RawConn) × Nat :=
  if conn_tmap_kinds.contains kind then
    (wrap_exceptions pid name ppid (catch_zombie pid name ppid probe native), 1)
  else
    (wrap_exceptions pid name ppid (.error (.valueError kind)), 0)

/-- `Process.open_files` of `_psosx.py`.  The second component counts calls
to the native provider.  For pid 0 the empty list is returned with no native
call; otherwise the native call (outcome `native`, entries (path, fd)) runs
under `catch_zombie` and the entries whose path satisfies `isfile` (the
`isfile_strict` helper of `psutil/_common.py`, external to this snapshot) are
kept, all inside the `wrap_exceptions` decorator. -/
def open_files (pid : Nat) (name : Option String) (ppid : Option Nat)
    (isfile : String → Bool) (probe : Except PyExc String)
    (native : Except PyExc (List (String × Nat))) :
    Except PyExc (List (String × Nat)) × Nat :=
  if pid = 0 then (wrap_exceptions pid name ppid (.ok []), 0)
  else
    match catch_zombie pid name ppid probe native with
    | .ok rawlist =>
        (wrap_exceptions pid name ppid
          (.ok (rawlist.filter (fun pf => isfile pf.1))), 1)
    | .error e => (wrap_exceptions pid name ppid (.error e), 1)

/-- `Process.num_fds` of `_psosx.py`.  The second component counts calls to
the native provider.  For pid 0 the value 0 is returned with no native call;
otherwise the native call (outcome `native`) runs under `catch_zombie` inside
the `wrap_exceptions` decorator. -/
def num_fds (pid : Nat) (name : Option String) (ppid : Option Nat)
    (probe : Except PyExc String) (native : Except PyExc Int) :
    Except PyExc Int × Nat :=
  if pid = 0 then (wrap_exceptions pid name ppid (.ok 0), 0)
  else (wrap_exceptions pid name ppid (catch_zombie pid name ppid probe native), 1)

end Process

/-- Accessors of the OSX `Process` class paired with whether their definition
carries the `wrap_exceptions` decorator, in source order. -/
def osx_accessor_wrapped : List (String × Bool) :=
  [("name", true), ("exe", true), ("cmdline", true), ("environ", true),
   ("ppid", true), ("cwd", true), ("uids", true), ("gids", true),
   ("terminal", true), ("memory_info", true), ("memory_full_info", true),
   ("cpu_times", true), ("create_time", true), ("num_ctx_switches", true),
   ("num_threads", true), ("open_files", true), ("connections", true),
   ("num_fds", true), ("wait", true), ("nice_get", true), ("nice_set", true),
   ("status", true), ("threads", true), ("memory_maps", true)]

end Psosx

namespace Cache

/-- Modelled from the spec: the `memoize_when_activated` decorator applied to
`_get_kinfo_proc` and `_get_pidtaskinfo` lives in `psutil/_common.py`, which
is not part of this snapshot.  A cache slot holds an active flag and an
optionally stored snapshot, as described in the CacheSlot data model of the
spec. -/
structure CacheSlot (α : Type) where
  active : Bool
  stored : Option α
  deriving Repr

/-- Modelled from the spec: a fetch state pairs the cache slot with a counter
of calls made to the Native Metrics Provider so far. -/
structure FetchState (α : Type) where
  slot : CacheSlot α
  calls : Nat
  deriving Repr

/-- Modelled from the spec: `activate()` enters caching mode, idempotently. -/
def cache_activate {α : Type} (s : CacheSlot α) : CacheSlot α :=
  { s with active := true }

/-- Modelled from the spec: `deactivate()` exits caching mode and discards
any stored snapshot, so a future activation re-fetches. -/
def cache_deactivate {α : Type} (_ : CacheSlot α) : CacheSlot α :=
  ⟨false, none⟩

/-- Modelled from the spec: `fetch(group)`.  The provider is a sequence of
snapshot values indexed by call number; each provider call increments the
call counter.  If the slot is inactive the provider is always called; if
active with nothing stored, the provider is called once and the result
stored; if active with a stored value, the stored value is returned without
a provider call. -/
def cache_fetch {α : Type} (provider : Nat → α) (st : FetchState α) :
    α × FetchState α :=
  if st.slot.active then
    match st.slot.stored with
    | some v => (v, st)
    | none =>
        let v := provider st.calls
        (v, ⟨⟨true, some v⟩, st.calls + 1⟩)
  else
    (provider st.calls, ⟨st.slot, st.calls + 1⟩)

end Cache

namespace Psopenvms

/-- The `pmem` named tuple of `_psopenvms.py` has fields rss and vms only,
and the source sets `pfullmem = pmem`: this list of field names mirrors
`pmem._fields` on that backend. -/
def pmem_fields : List String := ["rss", "vms"]

/-- Field names of `pfullmem` on the OpenVMS backend: the source aliases
`pfullmem = pmem`, so the fields are identical and no uss field exists. -/
def pfullmem_fields : List String := pmem_fields

/-- `virtual_memory` of `_psopenvms.py`: unconditionally raises a bare
`Exception` with this message. -/
def virtual_memory : Except PyExc Unit :=
  .error (.exception "Not implemented yet")

/-- `get_procfs_path` of `_psopenvms.py`: unconditionally raises a bare
`Exception`. -/
def get_procfs_path : Except PyExc String :=
  .error (.exception "Not implemented yet")

/-- `Process.__init__` of `_psopenvms.py`: stores the pid and then evaluates
`get_procfs_path()`, which raises, so no OpenVMS process handle is ever
constructed successfully. -/
def Process_init (pid : Nat) : Except PyExc (Nat × Option String × Option Nat) :=
  match get_procfs_path with
  | .ok _ => .ok (pid, none, none)
  | .error e => .error e

/-- The `wrap_exceptions` decorator of `_psopenvms.py`: despite its docstring
promising errno translation, its body calls the wrapped function and returns
its outcome unchanged, translating nothing. -/
def wrap_exceptions {α : Type} (r : Except PyExc α) : Except PyExc α := r

/-- `Process.connections` of `_psopenvms.py`: for every kind argument it
unconditionally raises a bare `Exception` with no kind validation (the second
component counts native provider calls, of which there are none on this
backend). -/
def Process_connections (_kind : String) : Except PyExc (List Psosx.RawConn) × Nat :=
  (wrap_exceptions (.error (.exception "Not implemented yet")), 0)

/-- Accessors of the OpenVMS `Process` class paired with whether their
definition carries the `wrap_exceptions` decorator, in source order
(`threads` is omitted: it is guarded by `HAS_THREADS = False` and therefore
never defined). -/
def openvms_accessor_wrapped : List (String × Bool) :=
  [("name", true), ("exe", true), ("cmdline", true), ("create_time", true),
   ("num_threads", true), ("connections", true), ("nice_get", true),
   ("nice_set", true), ("ppid", true), ("uids", true), ("gids", true),
   ("cpu_times", true), ("terminal", true), ("cwd", true),
   ("memory_info", true), ("status", true), ("open_files", false),
   ("num_fds", true), ("num_ctx_switches", true), ("wait", true),
   ("io_counters", true)]

end Psopenvms

/-- C1 counterexample: when the guarded body fails with a `RuntimeError` (one
of the ambiguous native not-found failures the claim covers) and the
independent status probe raises `NoSuchProcess`, the guard re-raises the
original `RuntimeError`, and the full wrapped accessor also surfaces
`RuntimeError`, which is not a `NoSuchProcess` failure — contradicting the
claim that the original NoSuchProcess failure is re-raised. -/
theorem claim_C1_counterexample :
    Psosx.catch_zombie (α := Unit) 7 none none
        (Except.error (PyExc.noSuchProcess 7 none)) (Except.error PyExc.runtimeError)
      = Except.error PyExc.runtimeError
  ∧ Psosx.guarded_call (α := Unit) 7 none none
        (Except.error (PyExc.noSuchProcess 7 none)) (Except.error PyExc.runtimeError)
      = Except.error PyExc.runtimeError
  ∧ PyExc.runtimeError ≠ PyExc.noSuchProcess 7 none := by
  refine ⟨rfl, rfl, by decide⟩

/-- C1 (amended): for every ambiguous native not-found failure (OSError with
errno ESRCH, or RuntimeError) caught by the Zombie-Guard, the guard probes
the status independently and resolves as follows: a `NoSuchProcess` from the
probe makes it re-raise the original failure unmodified (which the exception
translator then surfaces as `NoSuchProcess(pid, name)` when the original was
the not-found OSError, while an original RuntimeError propagates as
RuntimeError); a successful probe reporting zombie status raises
`ZombieProcess(pid, name, ppid)`; a successful probe with any non-zombie
status raises `AccessDenied(pid, name)`; any other exception class raised by
the probe propagates unmodified from the guard. -/
theorem claim_C1_zombie_guard (pid : Nat) (name : Option String)
    (ppid : Option Nat) (orig : PyExc)
    (horig : orig = PyExc.osError ESRCH ∨ orig = PyExc.runtimeError)
    (probe : Except PyExc String) :
    Psosx.catch_zombie (α := Unit) pid name ppid probe (Except.error orig) =
      Except.error
        (match probe with
         | Except.error (PyExc.noSuchProcess _ _) => orig
         | Except.error e => e
         | Except.ok st =>
             if st = Psosx.STATUS_ZOMBIE then PyExc.zombieProcess pid name ppid
             else PyExc.accessDenied pid name)
  ∧ Psosx.guarded_call (α := Unit) pid name ppid
        (Except.error (PyExc.noSuchProcess pid name)) (Except.error orig) =
      Except.error
        (if orig = PyExc.runtimeError then PyExc.runtimeError
         else PyExc.noSuchProcess pid name) := by
  rcases horig with rfl | rfl
  · constructor
    · cases probe with
      | ok st => simp [Psosx.catch_zombie, apply_ite]
      | error e =>
          cases e <;> simp [Psosx.catch_zombie]
    · simp [Psosx.guarded_call, Psosx.catch_zombie, Psosx.wrap_exceptions,
        Psosx.wrap_err]
  · constructor
    · cases probe with
      | ok st => simp [Psosx.catch_zombie, apply_ite]
      | error e =>
          cases e <;> simp [Psosx.catch_zombie]
    · simp [Psosx.guarded_call, Psosx.catch_zombie, Psosx.wrap_exceptions,
        Psosx.wrap_err]

/-- C1 witness: the amended theorem applied at pid 7 with an original
not-found OSError and a probe reporting zombie status. -/
theorem claim_C1_zombie_guard_witness :
    Psosx.catch_zombie (α := Unit) 7 none none (Except.ok "zombie")
        (Except.error (PyExc.osError 3))
      = Except.error (PyExc.zombieProcess 7 none none)
  ∧ Psosx.guarded_call (α := Unit) 7 none none
        (Except.error (PyExc.noSuchProcess 7 none))
        (Except.error (PyExc.osError 3))
      = Except.error (PyExc.noSuchProcess 7 none) := by
  have h := claim_C1_zombie_guard 7 none none (PyExc.osError 3) (Or.inl rfl)
    (Except.ok "zombie")
  simpa [Psosx.STATUS_ZOMBIE] using h

/-- C2: the `wrap_exceptions` translator of the OSX backend maps an OSError
with the process-not-found errno to `NoSuchProcess(pid, name)`, an OSError
with the permission errnos to `AccessDenied(pid, name)`, the native zombie
signal to `ZombieProcess(pid, name, ppid)`, and leaves every other failure
untranslated: an OSError with any other errno and any non-OSError,
non-zombie-signal exception both propagate unchanged. -/
theorem claim_C2_wrap_exceptions (pid : Nat) (name : Option String)
    (ppid : Option Nat) (en : Nat) (e : PyExc)
    (hen : en ≠ ESRCH ∧ en ≠ EPERM ∧ en ≠ EACCES)
    (he : e.isOSError = false ∧ e ≠ PyExc.zombieProcessError) :
    Psosx.wrap_exceptions (α := Unit) pid name ppid
        (Except.error (PyExc.osError ESRCH))
      = Except.error (PyExc.noSuchProcess pid name)
  ∧ Psosx.wrap_exceptions (α := Unit) pid name ppid
        (Except.error (PyExc.osError EPERM))
      = Except.error (PyExc.accessDenied pid name)
  ∧ Psosx.wrap_exceptions (α := Unit) pid name ppid
        (Except.error (PyExc.osError EACCES))
      = Except.error (PyExc.accessDenied pid name)
  ∧ Psosx.wrap_exceptions (α := Unit) pid name ppid
        (Except.error PyExc.zombieProcessError)
      = Except.error (PyExc.zombieProcess pid name ppid)
  ∧ Psosx.wrap_exceptions (α := Unit) pid name ppid
        (Except.error (PyExc.osError en))
      = Except.error (PyExc.osError en)
  ∧ Psosx.wrap_exceptions (α := Unit) pid name ppid (Except.error e)
      = Except.error e := by
  obtain ⟨h1, h2, h3⟩ := hen
  obtain ⟨h4, h5⟩ := he
  refine ⟨rfl, rfl, rfl, rfl, ?_, ?_⟩
  · simp [Psosx.wrap_exceptions, Psosx.wrap_err, h1, h2, h3]
  · cases e <;> simp_all [Psosx.wrap_exceptions, Psosx.wrap_err,
      PyExc.isOSError]

/-- C2 witness: the translator theorem applied at pid 7 with the untranslated
errno 99 and the untranslated exception class RuntimeError. -/
theorem claim_C2_wrap_exceptions_witness :
    Psosx.wrap_exceptions (α := Unit) 7 none none
        (Except.error (PyExc.osError ESRCH))
      = Except.error (PyExc.noSuchProcess 7 none)
  ∧ Psosx.wrap_exceptions (α := Unit) 7 none none
        (Except.error (PyExc.osError EPERM))
      = Except.error (PyExc.accessDenied 7 none)
  ∧ Psosx.wrap_exceptions (α := Unit) 7 none none
        (Except.error (PyExc.osError EACCES))
      = Except.error (PyExc.accessDenied 7 none)
  ∧ Psosx.wrap_exceptions (α := Unit) 7 none none
        (Except.error PyExc.zombieProcessError)
      = Except.error (PyExc.zombieProcess 7 none none)
  ∧ Psosx.wrap_exceptions (α := Unit) 7 none none
        (Except.error (PyExc.osError 99))
      = Except.error (PyExc.osError 99)
  ∧ Psosx.wrap_exceptions (α := Unit) 7 none none
        (Except.error PyExc.runtimeError)
      = Except.error PyExc.runtimeError :=
  claim_C2_wrap_exceptions 7 none none 99 PyExc.runtimeError
    (by decide) (by decide)

/-- C3: with the one-shot cache active and nothing stored, the first read
calls the provider once; the second consecutive read of the same group
returns the stored value with no further provider call; and after
`deactivate()` followed by `activate()`, the next read performs a fresh
provider call and returns the freshly fetched value rather than the
previously stored one. -/
theorem claim_C3_oneshot_cache {α : Type} (provider : Nat → α) (n : Nat) :
    (Cache.cache_fetch provider ⟨⟨true, none⟩, n⟩).2.calls = n + 1
  ∧ (Cache.cache_fetch provider
        (Cache.cache_fetch provider ⟨⟨true, none⟩, n⟩).2).1
      = (Cache.cache_fetch provider ⟨⟨true, none⟩, n⟩).1
  ∧ (Cache.cache_fetch provider
        (Cache.cache_fetch provider ⟨⟨true, none⟩, n⟩).2).2.calls = n + 1
  ∧ (Cache.cache_fetch provider
        ⟨Cache.cache_activate (Cache.cache_deactivate
            (Cache.cache_fetch provider ⟨⟨true, none⟩, n⟩).2.slot), n + 1⟩).2.calls
      = n + 2
  ∧ (Cache.cache_fetch provider
        ⟨Cache.cache_activate (Cache.cache_deactivate
            (Cache.cache_fetch provider ⟨⟨true, none⟩, n⟩).2.slot), n + 1⟩).1
      = provider (n + 1) := by
  refine ⟨rfl, rfl, rfl, rfl, rfl⟩

/-- C4: for every kind argument outside the fixed allowed set of connection
kinds, `connections(kind)` on the OSX backend raises `ValueError` (not a
native-layer or domain error), and zero calls to the native provider occur. -/
theorem claim_C4_connections_kind (pid : Nat) (name : Option String)
    (ppid : Option Nat) (kind : String) (probe : Except PyExc String)
    (native : Except PyExc (List Psosx.RawConn))
    (h : Psosx.conn_tmap_kinds.contains kind = false) :
    Psosx.Process.connections pid name ppid kind probe native
      = (Except.error (PyExc.valueError kind), 0) := by
  simp [Psosx.Process.connections, Psosx.wrap_exceptions, Psosx.wrap_err]
  simpa using h

/-- C4 witness: the connections theorem applied at the invalid kind "foo". -/
theorem claim_C4_connections_kind_witness :
    Psosx.Process.connections 7 none none "foo"
        (Except.ok "running") (Except.ok [])
      = (Except.error (PyExc.valueError "foo"), 0) :=
  claim_C4_connections_kind 7 none none "foo" (Except.ok "running")
    (Except.ok []) (by decide)

/-- C5: on the OSX backend, `memory_full_info()` returns every field of
`memory_info()` unchanged (rss, vms, pfaults, pageins) plus exactly one
additional unique-set-size field carrying the separately fetched uss value. -/
theorem claim_C5_memory_full_info (raw : Psosx.RawTuple) (uss : Int) :
    (Psosx.Process.memory_full_info raw uss).rss
      = (Psosx.Process.memory_info raw).rss
  ∧ (Psosx.Process.memory_full_info raw uss).vms
      = (Psosx.Process.memory_info raw).vms
  ∧ (Psosx.Process.memory_full_info raw uss).pfaults
      = (Psosx.Process.memory_info raw).pfaults
  ∧ (Psosx.Process.memory_full_info raw uss).pageins
      = (Psosx.Process.memory_info raw).pageins
  ∧ (Psosx.Process.memory_full_info raw uss).uss = uss :=
  ⟨rfl, rfl, rfl, rfl, rfl⟩

/-- C6: the snapshot fetchers return a native raw tuple unmodified exactly
when its length equals the length of the corresponding field-index map, and
fail with the integrity assertion on any length mismatch — never truncating
or padding. -/
theorem claim_C6_snapshot_length (good bad tgood tbad : Psosx.RawTuple)
    (hgood : good.length = Psosx.kinfo_proc_map.length)
    (hbad : bad.length ≠ Psosx.kinfo_proc_map.length)
    (htgood : tgood.length = Psosx.pidtaskinfo_map.length)
    (htbad : tbad.length ≠ Psosx.pidtaskinfo_map.length) :
    Psosx.get_kinfo_proc_check good = Except.ok good
  ∧ Psosx.get_kinfo_proc_check bad = Except.error PyExc.assertionError
  ∧ Psosx.get_pidtaskinfo_check tgood = Except.ok tgood
  ∧ Psosx.get_pidtaskinfo_check tbad = Except.error PyExc.assertionError := by
  refine ⟨?_, ?_, ?_, ?_⟩ <;>
    simp [Psosx.get_kinfo_proc_check, Psosx.get_pidtaskinfo_check,
      hgood, hbad, htgood, htbad]

/-- C6 witness: the length-check theorem applied to a well-shaped kinfo tuple
of 11 fields, a well-shaped pidtaskinfo tuple of 8 fields, and the empty and
singleton tuples as mismatches. -/
theorem claim_C6_snapshot_length_witness :
    Psosx.get_kinfo_proc_check (List.replicate 11 0)
      = Except.ok (List.replicate 11 0)
  ∧ Psosx.get_kinfo_proc_check [] = Except.error PyExc.assertionError
  ∧ Psosx.get_pidtaskinfo_check (List.replicate 8 0)
      = Except.ok (List.replicate 8 0)
  ∧ Psosx.get_pidtaskinfo_check [0] = Except.error PyExc.assertionError :=
  claim_C6_snapshot_length (List.replicate 11 0) [] (List.replicate 8 0) [0]
    (by decide) (by decide) (by decide) (by decide)

/-- C7 evaluation of the code at the failing input: every accessor of the
OSX Process class carries the `wrap_exceptions` decorator, but on the
OpenVMS backend the accessor `open_files` does not, so the wrapping is not
uniform across backends. -/
theorem claim_C7_wrapping_audit :
    Psosx.osx_accessor_wrapped.all (fun p => p.2) = true
  ∧ Psopenvms.openvms_accessor_wrapped.lookup "open_files" = some false
  ∧ Psopenvms.openvms_accessor_wrapped.all (fun p => p.2) = false := by
  refine ⟨by decide, by decide, by decide⟩

/-- C8 counterexample: for a pidtaskinfo tuple with no zero field,
`num_ctx_switches` returns the hard-coded 0 for the unavailable involuntary
sub-metric and `cpu_times` returns hard-coded 0 for the unavailable children
user and system times, instead of signalling the sub-metrics as
unsupported — contradicting the claim that no accessor returns fabricated or
zero data in place of an unavailable sub-metric. -/
theorem claim_C8_counterexample :
    Psosx.Process.num_ctx_switches [7, 7, 7, 7, 7, 7, 7, 7] = (7, 0)
  ∧ Psosx.Process.cpu_times [9, 9, 9, 9, 9, 9, 9, 9] = (9, 9, 0, 0) :=
  ⟨rfl, rfl⟩

/-- C8 (amended): backends lacking a whole operation signal it explicitly by
raising (the OpenVMS backend raises a not-implemented exception, as
`virtual_memory` shows), but the OSX backend fills unavailable sub-metrics
inside otherwise-supported accessors with constant zeros: `num_ctx_switches`
reports the involuntary count as 0 and `cpu_times` reports the children user
and system times as 0. -/
theorem claim_C8_amended (raw : Psosx.RawTuple) :
    Psopenvms.virtual_memory = Except.error (PyExc.exception "Not implemented yet")
  ∧ Psosx.Process.num_ctx_switches raw = (raw.getD 7 0, 0)
  ∧ Psosx.Process.cpu_times raw = (raw.getD 0 0, raw.getD 1 0, 0, 0) :=
  ⟨rfl, rfl, rfl⟩

/-- C9: the status resolution of the OSX backend is total — a native status
code present in `PROC_STATUSES` resolves to its mapped status string, and any
code absent from the table resolves to the placeholder instead of failing
with a lookup error, as the concrete unmapped code inside a full kinfo tuple
also shows for the `status` accessor. -/
theorem claim_C9_status_total (code : Int)
    (h : Psosx.PROC_STATUSES.lookup code = none) :
    Psosx.statusOfCode code = "?"
  ∧ Psosx.statusOfCode Psosx.SIDL = Psosx.STATUS_IDLE
  ∧ Psosx.statusOfCode Psosx.SRUN = Psosx.STATUS_RUNNING
  ∧ Psosx.statusOfCode Psosx.SSLEEP = Psosx.STATUS_SLEEPING
  ∧ Psosx.statusOfCode Psosx.SSTOP = Psosx.STATUS_STOPPED
  ∧ Psosx.statusOfCode Psosx.SZOMB = Psosx.STATUS_ZOMBIE
  ∧ Psosx.Process.status [0, 0, 0, 0, 0, 0, 0, 0, 0, 99, 0] = "?" := by
  refine ⟨by simp [Psosx.statusOfCode, h], ?_, ?_, ?_, ?_, ?_, ?_⟩ <;> decide

/-- C9 witness: the status totality theorem applied at the unmapped native
code 99. -/
theorem claim_C9_status_total_witness :
    Psosx.statusOfCode 99 = "?"
  ∧ Psosx.statusOfCode Psosx.SIDL = Psosx.STATUS_IDLE
  ∧ Psosx.statusOfCode Psosx.SRUN = Psosx.STATUS_RUNNING
  ∧ Psosx.statusOfCode Psosx.SSLEEP = Psosx.STATUS_SLEEPING
  ∧ Psosx.statusOfCode Psosx.SSTOP = Psosx.STATUS_STOPPED
  ∧ Psosx.statusOfCode Psosx.SZOMB = Psosx.STATUS_ZOMBIE
  ∧ Psosx.Process.status [0, 0, 0, 0, 0, 0, 0, 0, 0, 99, 0] = "?" :=
  claim_C9_status_total 99 (by decide)

/-- C10: for the handle with pid 0, `open_files()` returns the empty list and
`num_fds()` returns 0, in both cases with zero calls to the native provider,
whatever the provider or the status probe would have produced. -/
theorem claim_C10_pid0 (name : Option String) (ppid : Option Nat)
    (isfile : String → Bool) (probe : Except PyExc String)
    (nativeOF : Except PyExc (List (String × Nat)))
    (nativeFD : Except PyExc Int) :
    Psosx.Process.open_files 0 name ppid isfile probe nativeOF
      = (Except.ok [], 0)
  ∧ Psosx.Process.num_fds 0 name ppid probe nativeFD = (Except.ok 0, 0) :=
  ⟨rfl, rfl⟩
